import Mathlib

/-!
Verification development for the `ba_ai_builder` multi-stage document
generation pipeline.  The Python sources under `src/` are shallowly
embedded: Python `str` becomes `String` (with ASCII case rules), Python
dicts with a fixed key set become structures, insertion-ordered dicts with
dynamic keys become association lists updated in place, and the effectful
completion provider `llm_manager.complete` becomes a trace oracle
`LLM : Nat → Except String String` giving the outcome of the n-th
completion call of a run (normal return or raised exception).  File
system writes are threaded explicitly; collaborator operations that the
spec declares external (file I/O, the vector index, logging) are modelled
as succeeding, so the only failure source is the provider.
-/

/-! ## Python string primitives (ASCII semantics) -/

/-- Characters stripped by Python `str.strip()` with no argument
(ASCII whitespace: space, tab, newline, carriage return, form feed,
vertical tab). -/
def pySpace (c : Char) : Bool :=
  c = ' ' || c = '\t' || c = '\n' || c = '\r' || c = '\x0c' || c = '\x0b'

/-- Python `s.strip()`: remove leading and trailing whitespace. -/
def pyStrip (s : String) : String :=
  ⟨((s.data.dropWhile pySpace).reverse.dropWhile pySpace).reverse⟩

/-- Python `s.lstrip(chars)`: remove leading characters drawn from `chars`. -/
def pyLstrip (chars : List Char) (s : String) : String :=
  ⟨s.data.dropWhile (fun c => chars.contains c)⟩

/-- Python `s.startswith(p)`. -/
def pyStartsWith (p s : String) : Bool :=
  p.data.isPrefixOf s.data

/-- Python `s.endswith(p)`. -/
def pyEndsWith (p s : String) : Bool :=
  p.data.isSuffixOf s.data

/-- Substring test on lists: does `needle` occur contiguously in the
haystack?  (Python `needle in hay` for sequences of characters.) -/
def hasSub [BEq α] (needle : List α) : List α → Bool
  | [] => needle.isEmpty
  | a :: t => needle.isPrefixOf (a :: t) || hasSub needle t

/-- Python `sub in s` for strings. -/
def pyContains (sub s : String) : Bool :=
  hasSub sub.data s.data

/-- ASCII lower-casing of one character (Python `str.lower` restricted to
ASCII input, which is all the fixed keyword tables use). -/
def asciiLower (c : Char) : Char :=
  if 'A' ≤ c ∧ c ≤ 'Z' then Char.ofNat (c.toNat + 32) else c

/-- Python `s.lower()` (ASCII). -/
def pyLower (s : String) : String :=
  ⟨s.data.map asciiLower⟩

/-- ASCII upper-casing of one character. -/
def asciiUpper (c : Char) : Char :=
  if 'a' ≤ c ∧ c ≤ 'z' then Char.ofNat (c.toNat - 32) else c

/-- Python `s.upper()` (ASCII). -/
def pyUpper (s : String) : String :=
  ⟨s.data.map asciiUpper⟩

/-- Split a character list on every occurrence of `sep` (Python
`str.split(sep)` semantics: splitting the empty string yields `[""]`,
adjacent separators yield empty fields). -/
def splitCh (sep : Char) : List Char → List (List Char)
  | [] => [[]]
  | c :: t =>
    match splitCh sep t with
    | [] => [[]]
    | w :: ws => if c = sep then [] :: w :: ws else (c :: w) :: ws

/-- Python `content.split('\n')`. -/
def pyLines (s : String) : List String :=
  (splitCh '\n' s.data).map (fun l => ⟨l⟩)

/-- Python `'\n'.join(xs)`. -/
def joinNL (xs : List String) : String :=
  String.intercalate "\n" xs

/-- Python `s.split(sep, 1)` when `sep` occurs in `s`: the text before the
first occurrence and the text after it. -/
def pySplit1 (sep : Char) (s : String) : String × String :=
  let pre := s.data.takeWhile (fun c => c ≠ sep)
  let post := (s.data.dropWhile (fun c => c ≠ sep)).tail
  (⟨pre⟩, ⟨post⟩)

/-- Python truthiness of an optional string (`None` and `""` are falsy). -/
def pyTruthy : Option String → Bool
  | none => false
  | some s => !s.isEmpty

/-- `d[k] = v` on an insertion-ordered Python dict modelled as an
association list: replace the value in place if the key is present,
otherwise append the binding. -/
def dictSet (m : List (String × β)) (k : String) (v : β) : List (String × β) :=
  if m.any (fun p => p.1 == k) then
    m.map (fun p => if p.1 == k then (k, v) else p)
  else
    m ++ [(k, v)]

/-- Python `str(bool)` rendering (`True` / `False`). -/
def pyBool (b : Bool) : String :=
  if b then "True" else "False"

/-! ## ValidatorAgent (src/agents/validator.py) -/

/-- Result dict of `ValidatorAgent.validate_document`. -/
structure ValidationResult where
  valid : Bool
  errors : List String
  warnings : List String
  score : Int
  suggestions : List String
  deriving Repr, DecidableEq

/-- `validation_rules['brd']['required_sections']`. -/
def brd_required_sections : List String :=
  ["Executive Summary", "Business Objectives", "Functional Requirements",
   "Non-functional Requirements"]

/-- `validation_rules['srs']['required_sections']`. -/
def srs_required_sections : List String :=
  ["System Overview", "Functional Specifications", "Technical Requirements",
   "Interface Requirements"]

/-- `ValidatorAgent._check_basic_format`: returns the (errors, warnings)
appended by the check, in order. -/
def check_basic_format (content : String) : List String × List String :=
  if (pyStrip content).isEmpty then
    (["Document is empty"], [])
  else
    let lines := pyLines content
    let longWarns := (lines.enum.filter (fun p => 200 < p.2.length)).map
      (fun p => "Line " ++ toString (p.1 + 1) ++ " is very long (" ++
        toString p.2.length ++ " characters)")
    let shortWarns := if lines.length < 5 then ["Document seems too short"] else []
    ([], longWarns ++ shortWarns)

/-- Header detection of `_check_markdown_structure`: the stripped line
starts with `#`. -/
def isHeaderLine (l : String) : Bool :=
  pyStartsWith "#" (pyStrip l)

/-- Header level as computed by the source: `len(line) - len(line.lstrip('#'))`
on the raw (unstripped) line. -/
def headerLevel (l : String) : Nat :=
  l.length - (pyLstrip ['#'] l).length

/-- One adjacent pair of collected header levels jumps by more than one. -/
def hasLevelSkip : List Nat → Bool
  | a :: b :: t => decide (a + 1 < b) || hasLevelSkip (b :: t)
  | _ => false

/-- `ValidatorAgent._check_markdown_structure`: (errors, warnings) appended
by the check.  The hierarchy warning is emitted at most once (the source
breaks out of the loop after the first append). -/
def check_markdown_structure (content : String) : List String × List String :=
  let lines := pyLines content
  let headerLines := lines.filter isHeaderLine
  let levels := headerLines.map headerLevel
  let errs := if headerLines.isEmpty then ["No markdown headers found"] else []
  let warns := if hasLevelSkip levels then ["Header level skipped - poor hierarchy"] else []
  (errs, warns)

/-- `ValidatorAgent._check_document_sections`: one error per required
section whose lower-cased title does not occur in the lower-cased
content. -/
def check_document_sections (content doc_type : String) : List String :=
  let required :=
    if doc_type = "brd" then brd_required_sections
    else if doc_type = "srs" then srs_required_sections
    else []
  let content_lower := pyLower content
  let missing := required.filter (fun sec => !pyContains (pyLower sec) content_lower)
  missing.map (fun sec => "Missing required section: " ++ sec)

/-- `ValidatorAgent._calculate_score`:
`max(0, 100 - 20*len(errors) - 5*len(warnings))` over Python ints. -/
def calculate_score (errors warnings : Nat) : Int :=
  max 0 (100 - 20 * (errors : Int) - 5 * (warnings : Int))

/-- `ValidatorAgent.validate_document`.  The checks run in source order
(basic format, then markdown structure for markdown/brd/srs, then the
kind-specific section check for brd/srs), accumulating errors and
warnings; the body cannot raise in this model, so the `except` branch of
the source is unreachable. -/
def validate_document (content : String) (doc_type : String) : ValidationResult :=
  let (e1, w1) := check_basic_format content
  let (e2, w2) :=
    if doc_type = "markdown" ∨ doc_type = "brd" ∨ doc_type = "srs" then
      check_markdown_structure content
    else ([], [])
  let e3 :=
    if doc_type = "brd" ∨ doc_type = "srs" then
      check_document_sections content doc_type
    else []
  let errors := e1 ++ e2 ++ e3
  let warnings := w1 ++ w2
  let score := calculate_score errors.length warnings.length
  { valid := decide (70 ≤ score)
    errors := errors
    warnings := warnings
    score := score
    suggestions := [] }

/-! ## Section extraction (src/agents/analyzer.py `_extract_sections`,
identical code in src/agents/document_writer.py `_extract_document_sections`) -/

/-- A line opens a new section when its stripped form starts with `#`. -/
def isHeadingLine (l : String) : Bool :=
  pyStartsWith "#" (pyStrip l)

/-- Section title of a heading line: `line.strip().lstrip('#').strip()`. -/
def headingTitle (l : String) : String :=
  pyStrip (pyLstrip ['#'] (pyStrip l))

/-- Close the currently open section (`sections[current_section] = ...`),
honouring the Python truthiness test `if current_section:` (a `None` or
empty-string section name saves nothing). -/
def flushSection (acc : List (String × String)) (cur : Option String)
    (buf : List String) : List (String × String) :=
  if pyTruthy cur then dictSet acc (cur.getD "") (pyStrip (joinNL buf)) else acc

/-- The line loop of `_extract_sections`: state is (saved sections,
current section title, accumulated body lines). -/
def extractSectionsLoop (acc : List (String × String)) (cur : Option String)
    (buf : List String) : List String → List (String × String)
  | [] => flushSection acc cur buf
  | l :: rest =>
    if isHeadingLine l then
      extractSectionsLoop (flushSection acc cur buf) (some (headingTitle l)) [] rest
    else if pyTruthy cur then
      extractSectionsLoop acc cur (buf ++ [l]) rest
    else
      extractSectionsLoop acc cur buf rest

/-- `AnalyzerAgent._extract_sections` / `DocumentWriterAgent._extract_document_sections`:
ordered mapping heading title → stripped body. -/
def extract_sections (content : String) : List (String × String) :=
  extractSectionsLoop [] none [] (pyLines content)

/-! ## Requirement extraction (src/agents/document_writer.py) -/

/-- Keyword test opening the "in requirements" state of
`_extract_requirements` (case-insensitive substring match on the stripped
line). -/
def hasReqKeyword (s : String) : Bool :=
  ["requirement", "functional", "business rule"].any
    (fun kw => pyContains kw (pyLower s))

/-- Keyword test of `_extract_technical_requirements`. -/
def hasTechKeyword (s : String) : Bool :=
  ["technical", "system", "performance", "security"].any
    (fun kw => pyContains kw (pyLower s))

/-- `line.startswith(tuple('123456789'))`: first character is a digit 1–9
(note: a leading `'0'` does not match). -/
def startsWithDigit19 (s : String) : Bool :=
  match s.data with
  | [] => false
  | c :: _ => decide ('1' ≤ c ∧ c ≤ '9')

/-- Bullet/number prefix stripping of the requirement extractors:
`line.lstrip('-').lstrip('0123456789').lstrip('.').strip()`. -/
def stripReqPrefixes (s : String) : String :=
  pyStrip (pyLstrip ['.'] (pyLstrip ['0','1','2','3','4','5','6','7','8','9']
    (pyLstrip ['-'] s)))

/-- One iteration of the `_extract_requirements` loop (the line is
stripped first; a keyword line opens the state and `continue`s; a
bullet/number line under the active state is captured when the stripped
requirement is non-empty and strictly longer than 10 characters; a `#`
line then closes the state). -/
def reqStep (kw : String → Bool) (st : Bool × List String) (line : String) :
    Bool × List String :=
  let s := pyStrip line
  if kw s then (true, st.2)
  else
    let acc :=
      if st.1 ∧ (pyStartsWith "-" s ∨ startsWithDigit19 s) then
        let req := stripReqPrefixes s
        if ¬req.isEmpty ∧ 10 < req.length then st.2 ++ [req] else st.2
      else st.2
    let inSec := if pyStartsWith "#" s ∧ st.1 then false else st.1
    (inSec, acc)

/-- `DocumentWriterAgent._extract_requirements` (BRD). -/
def extract_requirements (content : String) : List String :=
  ((pyLines content).foldl (reqStep hasReqKeyword) (false, [])).2

/-- `DocumentWriterAgent._extract_technical_requirements` (SRS): same loop
with the technical keyword list. -/
def extract_technical_requirements (content : String) : List String :=
  ((pyLines content).foldl (reqStep hasTechKeyword) (false, [])).2

/-! ## Feature categorisation and timeline (src/agents/feature_planner.py) -/

/-- The three buckets of `_extract_feature_categories`. -/
structure Categories where
  core : List String := []
  enhanced : List String := []
  optional : List String := []
  deriving Repr, DecidableEq

inductive CatKind | core | enhanced | optional
  deriving Repr, DecidableEq

def Categories.push (cats : Categories) : CatKind → String → Categories
  | .core, f => { cats with core := cats.core ++ [f] }
  | .enhanced, f => { cats with enhanced := cats.enhanced ++ [f] }
  | .optional, f => { cats with optional := cats.optional ++ [f] }

/-- One iteration of the `_extract_feature_categories` loop: the stripped
line first (re)selects the current bucket if it matches a category
keyword, then — in the same iteration — is captured into the active
bucket when it is a bullet/number line shorter than 100 characters. -/
def featureCatStep (st : Option CatKind × Categories) (line : String) :
    Option CatKind × Categories :=
  let s := pyStrip line
  let lower := pyLower s
  let cur :=
    if ["core", "must-have", "essential"].any (fun kw => pyContains kw lower) then
      some CatKind.core
    else if ["enhanced", "should-have", "important"].any (fun kw => pyContains kw lower) then
      some CatKind.enhanced
    else if ["optional", "nice-to-have", "future"].any (fun kw => pyContains kw lower) then
      some CatKind.optional
    else st.1
  match cur with
  | none => (none, st.2)
  | some k =>
    if pyStartsWith "-" s ∨ startsWithDigit19 s then
      let feature := stripReqPrefixes s
      if ¬feature.isEmpty ∧ feature.length < 100 then
        (some k, st.2.push k feature)
      else (some k, st.2)
    else (some k, st.2)

/-- `FeaturePlannerAgent._extract_feature_categories`. -/
def extract_feature_categories (content : String) : Categories :=
  ((pyLines content).foldl featureCatStep (none, {})).2

/-- `FeaturePlannerAgent._extract_timeline`: every raw line containing a
timeline keyword (case-insensitive) and a colon contributes the pair
obtained by splitting on the first colon, both sides stripped. -/
def extract_timeline (content : String) : List (String × String) :=
  (pyLines content).foldl
    (fun acc line =>
      if ["phase", "sprint", "week", "month", "quarter"].any
          (fun kw => pyContains kw (pyLower line)) then
        if pyContains ":" line then
          let parts := pySplit1 ':' line
          dictSet acc (pyStrip parts.1) (pyStrip parts.2)
        else acc
      else acc)
    []

/-! ## Architecture extraction (src/agents/architect.py) -/

/-- `ArchitectAgent._extract_components`.  The source finishes with
`list(set(components))`, whose order Python leaves unspecified; the model
deduplicates keeping first occurrences. -/
def extract_components (content : String) : List String :=
  let collected := (pyLines content).foldl
    (fun acc line =>
      let s := pyStrip line
      if ["component", "service", "module", "layer"].any
          (fun kw => pyContains kw (pyLower s)) then
        if ¬s.isEmpty ∧ ¬pyStartsWith "#" s then
          let component := pyStrip (pySplit1 ':' s).1
          if ¬component.isEmpty ∧ component.length < 50 then acc ++ [component]
          else acc
        else acc
      else acc)
    []
  collected.eraseDups

structure TechStack where
  backend : List String := []
  frontend : List String := []
  mobile : List String := []
  database : List String := []
  infrastructure : List String := []
  deriving Repr, DecidableEq

/-- `ArchitectAgent._extract_technology_stack`: whole-document
case-insensitive substring search against five fixed keyword lists. -/
def extract_technology_stack (content : String) : TechStack :=
  let lower := pyLower content
  { backend := ["python", "java", "node.js", "go", "rust", "c#", ".net"].filter
      (fun t => pyContains t lower)
    frontend := ["react", "vue", "angular", "svelte", "html", "css", "javascript"].filter
      (fun t => pyContains t lower)
    mobile := ["flutter", "react native", "swift", "kotlin", "java (android)",
      "objective-c"].filter (fun t => pyContains t lower)
    database := ["postgresql", "mysql", "mongodb", "redis", "sqlite",
      "elasticsearch"].filter (fun t => pyContains t lower)
    infrastructure := ["docker", "kubernetes", "aws", "azure", "gcp", "nginx",
      "apache"].filter (fun t => pyContains t lower) }

/-! ## RefinerAgent strategy selection (src/agents/refiner.py) -/

def structureKeywords : List String := ["structure", "organize", "format", "section"]
def clarityKeywords : List String := ["unclear", "confusing", "explain", "clarify"]
def completenessKeywords : List String := ["missing", "incomplete", "add", "include"]

/-- `RefinerAgent._analyze_feedback`: first-match keyword buckets over the
lower-cased feedback. -/
def analyze_feedback (feedback : String) : String :=
  let fl := pyLower feedback
  if structureKeywords.any (fun kw => pyContains kw fl) then "structure_improvement"
  else if clarityKeywords.any (fun kw => pyContains kw fl) then "clarity_optimization"
  else if completenessKeywords.any (fun kw => pyContains kw fl) then "completeness_check"
  else "content_enhancement"

/-- The fixed instruction string per strategy
(`strategy_instructions` with `content_enhancement` as lookup default). -/
def strategy_instruction (strategy : String) : String :=
  if strategy = "structure_improvement" then
    "Focus on improving the structure, organization, and formatting. Reorganize sections for better flow."
  else if strategy = "clarity_optimization" then
    "Focus on making the content clearer and easier to understand. Simplify complex concepts."
  else if strategy = "completeness_check" then
    "Focus on adding missing information and ensuring comprehensive coverage of all topics."
  else
    "Focus on overall content quality, accuracy, and professional presentation."

/-- `RefinerAgent._create_refinement_prompt`. -/
def create_refinement_prompt (content feedback content_type strategy : String) : String :=
  "\nOriginal " ++ content_type ++ ":\n" ++ content ++ "\n\nFeedback received:\n" ++
  feedback ++ "\n\nRefinement strategy: " ++ strategy ++ "\n\n\n" ++
  strategy_instruction strategy ++
  "\n\nPlease provide the refined " ++ content_type ++
  " that addresses the feedback while maintaining or improving the overall quality.\n"

/-- Python `s.count(sub)`: non-overlapping occurrence count. -/
def countSub (needle : List Char) : List Char → Nat
  | [] => 0
  | a :: t =>
    if needle.isPrefixOf (a :: t) then
      1 + countSub needle (t.drop (needle.length - 1))
    else
      countSub needle t
termination_by l => l.length
decreasing_by
  · simp only [List.length_drop, List.length_cons]; omega
  · simp only [List.length_cons]; omega

/-- `RefinerAgent._identify_improvements`: descriptive diff summary
(line-count delta, new heading count, sub-section appearance, new bullet
count). -/
def identify_improvements (original refined : String) : List String :=
  let original_lines := (pyLines original).length
  let refined_lines := (pyLines refined).length
  let i1 := if original_lines < refined_lines then
      ["Expanded content from " ++ toString original_lines ++ " to " ++
        toString refined_lines ++ " lines"]
    else []
  let original_headers := (pyLines original).filter (fun l => pyStartsWith "#" (pyStrip l))
  let refined_headers := (pyLines refined).filter (fun l => pyStartsWith "#" (pyStrip l))
  let i2 := if original_headers.length < refined_headers.length then
      ["Added " ++ toString (refined_headers.length - original_headers.length) ++
        " new sections"]
    else []
  let i3 := if pyContains "##" refined ∧ ¬pyContains "##" original then
      ["Improved document structure with sub-sections"]
    else []
  let original_lists := countSub ['-', ' '] original.data
  let refined_lists := countSub ['-', ' '] refined.data
  let i4 := if original_lists < refined_lists then
      ["Added " ++ toString (refined_lists - original_lists) ++
        " new list items for better organization"]
    else []
  i1 ++ i2 ++ i3 ++ i4

/-! ## Detailed-feature filename sanitisation
(src/agents/feature_planner.py line 195)

`''.join(c if c.isalnum() or c == '_' else '_' for c in feature.lower()).strip('_')[:50]`

For the case arithmetic the feature string is viewed as its list of code
points; `strCodes` mediates between the two views. -/

/-- Code points of a string. -/
def strCodes (s : String) : List Nat :=
  s.data.map Char.toNat

/-- Python `str.lower` on one code point (ASCII range). -/
def lowerCode (n : Nat) : Nat :=
  if 65 ≤ n ∧ n ≤ 90 then n + 32 else n

/-- Python `str.isalnum` on one code point (ASCII range). -/
def isAlnumCode (n : Nat) : Bool :=
  (48 ≤ n ∧ n ≤ 57) || (65 ≤ n ∧ n ≤ 90) || (97 ≤ n ∧ n ≤ 122)

/-- `strip('_')` on code points. -/
def stripUnderscores (l : List Nat) : List Nat :=
  ((l.dropWhile (fun c => c = 95)).reverse.dropWhile (fun c => c = 95)).reverse

/-- The `safe_name` computation of `generate_detailed_features`:
lower-case, replace every character that is neither alphanumeric nor an
underscore by `_`, strip leading/trailing underscores, truncate to 50. -/
def sanitize_feature_name (feature : List Nat) : List Nat :=
  let mapped := (feature.map lowerCode).map
    (fun c => if isAlnumCode c || c == 95 then c else 95)
  (stripUnderscores mapped).take 50

/-- String-level wrapper used when building the detail file path. -/
def safeName (feature : String) : String :=
  ⟨(sanitize_feature_name (strCodes feature)).map Char.ofNat⟩

/-! ## Provider, configuration and shared metadata -/

/-- The effectful `llm_manager.complete` is embedded as a trace oracle:
the outcome (returned text or raised exception message) of the n-th
completion call of a run.  Quantifying over oracles quantifies over all
provider behaviours, including prompt-dependent ones, because the call
sequence is deterministic given the oracle. -/
def LLM : Type := Nat → Except String String

/-- One provider call: consumes the next slot of the trace.  The prompt
and system prompt are threaded from the call sites to mirror the source;
the oracle abstracts how the backend reacts to them. -/
def llmComplete (llm : LLM) (k : Nat) (_prompt _system_prompt : String) :
    Except String String × Nat :=
  (llm k, k + 1)

/-- The configuration fields the embedded code reads (`config.*`). -/
structure Config where
  current_version : String := "v1.0.0"
  project_name : String := "ai_builder"
  author : String := ""
  description : String := ""
  provider : String := ""
  model_name : String := ""
  collection_name : String := ""
  deriving Repr, DecidableEq

/-- The context dict keys read by the orchestrator (`context` argument of
`build_project`); `none` models an absent key. -/
structure Ctx where
  business_needs : Option String := none
  market_context : Option String := none
  deriving Repr, DecidableEq

/-- The `metadata` sub-dict of an artifact.  The agents populate
different key subsets, so keys that may be absent are `Option`s; the
default value models the empty dict. -/
structure MetaD where
  agent : String := "Unknown"
  version : Option String := none
  context : Option Ctx := none
  inputs : List String := []
  based_on : Option String := none
  document_version : Option String := none
  refinement_round : Option Nat := none
  refined : Bool := false
  feedback : Option String := none
  error : Bool := false
  deriving Repr, DecidableEq

def metaAgent : Option MetaD → String
  | some m => m.agent
  | none => "Unknown"

def metaVersion : Option MetaD → String
  | some m => m.version.getD "Unknown"
  | none => "Unknown"

def metaInputs : Option MetaD → List String
  | some m => m.inputs
  | none => []

/-! ## Prompt templates (src/core/prompt_manager.py built-in defaults,
rendered with the substitutions each agent passes) -/

def analysisPrompt (requirements : String) : String :=
  "\nAnalyze the following project requirements and provide a comprehensive analysis:\n\nRequirements: "
  ++ requirements ++
  "\n\nPlease provide:\n1. Project overview and objectives\n2. Key stakeholders and their needs\n3. Technical requirements and constraints\n4. Risk assessment\n5. Success criteria\n"

def architecturePrompt (analysis _requirements : String) : String :=
  "\nDesign the system architecture for the following project:\n\nProject Analysis: "
  ++ analysis ++
  "\n\nPlease provide:\n1. High-level system architecture\n2. Component breakdown\n3. Technology stack recommendations\n4. Integration points\n5. Scalability considerations\n"

def featuresPrompt (analysis architecture : String) : String :=
  "\nCreate a detailed feature list based on the project analysis:\n\nAnalysis: "
  ++ analysis ++ "\nArchitecture: " ++ architecture ++
  "\n\nPlease provide:\n1. Core features (must-have)\n2. Enhanced features (should-have)\n3. Optional features (nice-to-have)\n4. Feature prioritization\n5. Implementation timeline\n"

def brdPrompt (analysis features : String) : String :=
  "\nCreate a Business Requirements Document (BRD) based on the following:\n\nAnalysis: "
  ++ analysis ++ "\nFeatures: " ++ features ++
  "\n\nPlease create a comprehensive BRD including:\n1. Executive Summary\n2. Business Objectives\n3. Functional Requirements\n4. Non-functional Requirements\n5. Acceptance Criteria\n"

def srsPrompt (analysis architecture features : String) : String :=
  "\nCreate a Software Requirements Specification (SRS) based on the following:\n\nAnalysis: "
  ++ analysis ++ "\nArchitecture: " ++ architecture ++ "\nFeatures: " ++ features ++
  "\n\nPlease create a detailed SRS including:\n1. System Overview\n2. Functional Specifications\n3. Technical Requirements\n4. Interface Requirements\n5. Performance Requirements\n"

/-- The generic fallback template for unknown names (used for
`bnm_analysis` and `feature_detail`), rendered with no `requirements`
variable, which Jinja prints as the empty string. -/
def genericPrompt : String :=
  "Please provide detailed analysis for: "

/-! ## Artifact structures (the per-agent result dicts) -/

structure AnalysisArtifact where
  error : Option String := none
  raw_requirements : String := ""
  analysis_content : String := ""
  metadata : Option MetaD := none
  sections : List (String × String) := []
  deriving Repr, DecidableEq

/-- Result dict of `analyze_bnmp` (discarded by the orchestrator). -/
structure BnmArtifact where
  error : Option String := none
  business_needs : String := ""
  analysis_content : String := ""
  metadata : Option MetaD := none
  sections : List (String × String) := []
  deriving Repr, DecidableEq

structure ArchitectureArtifact where
  error : Option String := none
  base_analysis : AnalysisArtifact := {}
  architecture_content : String := ""
  metadata : Option MetaD := none
  components : Option (List String) := none
  technology_stack : Option TechStack := none
  deriving Repr, DecidableEq

/-- One entry of the detailed-features mapping. -/
structure FeatDetail where
  content : String := ""
  file_path : String := ""
  deriving Repr, DecidableEq

/-- The return dict of `generate_detailed_features`: on success an
insertion-ordered mapping feature → detail, on failure the single-entry
`{"error": msg}` dict. -/
structure DetailedResult where
  entries : List (String × FeatDetail) := []
  error : Option String := none
  deriving Repr, DecidableEq

structure FeaturesArtifact where
  error : Option String := none
  base_analysis : AnalysisArtifact := {}
  base_architecture : ArchitectureArtifact := {}
  features_content : String := ""
  metadata : Option MetaD := none
  feature_categories : Option Categories := none
  timeline : Option (List (String × String)) := none
  detailed_features : Option DetailedResult := none
  deriving Repr, DecidableEq

structure DocumentArtifact where
  error : Option String := none
  document_type : String := "document"
  content : String := ""
  metadata : Option MetaD := none
  sections : List (String × String) := []
  requirements : Option (List String) := none
  technical_requirements : Option (List String) := none
  deriving Repr, DecidableEq

/-- Result dict of `RefinerAgent.refine_content`. -/
structure RefinementResult where
  error : Option String := none
  original_content : String := ""
  refined_content : String := ""
  feedback : String := ""
  content_type : Option String := none
  refinement_strategy : Option String := none
  metadata : Option MetaD := none
  improvements : List String := []
  deriving Repr, DecidableEq

/-! ## AnalyzerAgent (src/agents/analyzer.py) -/

/-- `AnalyzerAgent.analyze_requirements`: one completion call; on a raised
provider error the degraded dict (error set, empty content) is returned
instead of propagating. -/
def analyze_requirements (cfg : Config) (llm : LLM) (k : Nat)
    (requirements : String) (context : Option Ctx) : AnalysisArtifact × Nat :=
  match llmComplete llm k (analysisPrompt requirements)
      "You are an expert business analyst. Provide thorough and structured analysis." with
  | (.ok analysis_content, k') =>
    ({ raw_requirements := requirements
       analysis_content := analysis_content
       metadata := some { agent := "Analyzer", version := some cfg.current_version,
                          context := context }
       sections := extract_sections analysis_content }, k')
  | (.error e, k') =>
    ({ error := some e
       raw_requirements := requirements
       analysis_content := ""
       metadata := some { agent := "Analyzer", error := true } }, k')

/-- `AnalyzerAgent.analyze_bnmp` (its result is assigned and then never
used by the orchestrator; it still consumes one completion call). -/
def analyze_bnmp (cfg : Config) (llm : LLM) (k : Nat)
    (bnm : String) (mctx : String) : BnmArtifact × Nat :=
  match llmComplete llm k genericPrompt
      "You are a business strategist. Analyze the business needs and market position." with
  | (.ok analysis_content, k') =>
    ({ business_needs := bnm
       analysis_content := analysis_content
       metadata := some { agent := "Analyzer", version := some cfg.current_version,
                          context := some { market_context := some mctx } }
       sections := extract_sections analysis_content }, k')
  | (.error e, k') =>
    ({ error := some e
       business_needs := bnm
       analysis_content := ""
       metadata := some { agent := "Analyzer", error := true } }, k')

/-- `AnalyzerAgent.refine_analysis`: the provider failure path returns the
input artifact untouched (the copy-and-patch happens only after the call
returns).  A missing `metadata` key would make the patch raise `KeyError`,
also caught and answered with the unchanged input. -/
def refine_analysis (llm : LLM) (k : Nat) (analysis : AnalysisArtifact)
    (feedback : String) : AnalysisArtifact × Nat :=
  let prompt := "\nOriginal Analysis:\n" ++ analysis.analysis_content ++
    "\n\nFeedback:\n" ++ feedback ++
    "\n\nPlease refine the analysis based on the feedback provided. Keep the good parts and improve the areas mentioned in the feedback.\n"
  match llmComplete llm k prompt
      "You are refining a business analysis based on feedback. Maintain structure while addressing concerns." with
  | (.ok refined_content, k') =>
    match analysis.metadata with
    | none => (analysis, k')
    | some m =>
      ({ analysis with
         analysis_content := refined_content
         metadata := some { m with refined := true, feedback := some feedback }
         sections := extract_sections refined_content }, k')
  | (.error _, k') => (analysis, k')

/-! ## ArchitectAgent (src/agents/architect.py) -/

/-- `ArchitectAgent.design_architecture`. -/
def design_architecture (cfg : Config) (llm : LLM) (k : Nat)
    (analysis : AnalysisArtifact) (requirements : String) :
    ArchitectureArtifact × Nat :=
  match llmComplete llm k (architecturePrompt analysis.analysis_content requirements)
      "You are a senior software architect. Design scalable and maintainable system architecture." with
  | (.ok architecture_content, k') =>
    ({ base_analysis := analysis
       architecture_content := architecture_content
       metadata := some { agent := "Architect", version := some cfg.current_version,
                          based_on := some (metaAgent analysis.metadata) }
       components := some (extract_components architecture_content)
       technology_stack := some (extract_technology_stack architecture_content) }, k')
  | (.error e, k') =>
    ({ error := some e
       base_analysis := analysis
       architecture_content := ""
       metadata := some { agent := "Architect", error := true } }, k')

/-- `ArchitectAgent.refine_architecture`. -/
def refine_architecture (llm : LLM) (k : Nat) (architecture : ArchitectureArtifact)
    (feedback : String) : ArchitectureArtifact × Nat :=
  let prompt := "\nOriginal Architecture:\n" ++ architecture.architecture_content ++
    "\n\nFeedback:\n" ++ feedback ++
    "\n\nPlease refine the architecture design based on the feedback provided. Address the concerns while maintaining system integrity.\n"
  match llmComplete llm k prompt
      "You are refining a system architecture based on feedback. Ensure technical feasibility." with
  | (.ok refined_content, k') =>
    match architecture.metadata with
    | none => (architecture, k')
    | some m =>
      ({ architecture with
         architecture_content := refined_content
         metadata := some { m with refined := true, feedback := some feedback }
         components := some (extract_components refined_content)
         technology_stack := some (extract_technology_stack refined_content) }, k')
  | (.error _, k') => (architecture, k')

/-! ## FeaturePlannerAgent (src/agents/feature_planner.py) -/

/-- The per-feature prompt of `generate_detailed_features`: the
`feature_detail` template resolves to the generic fallback with no
`requirements` variable, and `.format(feature=...)` finds no placeholder,
so every feature receives the same prompt string. -/
def featureDetailPrompt (_feature : String) : String :=
  genericPrompt

/-- The fan-out loop of `generate_detailed_features`: one completion call
per feature, in order, writing each detail file and mapping entry as it
goes; the first raised call aborts the loop with the exception (files
already written remain on disk). -/
def detailLoop (llm : LLM) (output_dir : String) :
    Nat → List (String × String) → List (String × FeatDetail) → List String →
    Except String (List (String × FeatDetail)) × Nat × List (String × String)
  | k, fs, acc, [] => (.ok acc, k, fs)
  | k, fs, acc, feature :: rest =>
    match llmComplete llm k (featureDetailPrompt feature)
        "You are a senior product manager. Write a detailed, clear, and actionable feature specification." with
    | (.ok detail_content, k') =>
      let file_path := output_dir ++ "/features/" ++ safeName feature ++ ".md"
      detailLoop llm output_dir k' (dictSet fs file_path detail_content)
        (dictSet acc feature { content := detail_content, file_path := file_path }) rest
    | (.error e, k') => (.error e, k', fs)

/-- `FeaturePlannerAgent.generate_detailed_features`.  The `try` block
wraps the whole loop, so a raised call discards the partially built
mapping and the function returns the single-entry error dict. -/
def generate_detailed_features (llm : LLM) (k : Nat) (fs : List (String × String))
    (features : FeaturesArtifact) (output_dir : String) :
    DetailedResult × Nat × List (String × String) :=
  let cats := features.feature_categories.getD {}
  let all_features := cats.core ++ cats.enhanced ++ cats.optional
  match detailLoop llm output_dir k fs [] all_features with
  | (.ok entries, k', fs') => ({ entries := entries, error := none }, k', fs')
  | (.error e, k', fs') => ({ entries := [], error := some e }, k', fs')

/-- `FeaturePlannerAgent.plan_features` (the orchestrator always calls it
with `detailed_features=True` and a non-empty output directory). -/
def plan_features (cfg : Config) (llm : LLM) (k : Nat) (fs : List (String × String))
    (analysis : AnalysisArtifact) (architecture : ArchitectureArtifact)
    (detailed_features : Bool) (output_dir : String) :
    FeaturesArtifact × Nat × List (String × String) :=
  match llmComplete llm k
      (featuresPrompt analysis.analysis_content architecture.architecture_content)
      "You are a product manager. Create a comprehensive feature plan with clear priorities." with
  | (.error e, k') =>
    ({ error := some e
       base_analysis := analysis
       base_architecture := architecture
       features_content := ""
       metadata := some { agent := "FeaturePlanner", error := true } }, k', fs)
  | (.ok features_content, k') =>
    let base : FeaturesArtifact :=
      { base_analysis := analysis
        base_architecture := architecture
        features_content := features_content
        metadata := some { agent := "FeaturePlanner", version := some cfg.current_version,
                           inputs := ["analysis", "architecture"] }
        feature_categories := some (extract_feature_categories features_content)
        timeline := some (extract_timeline features_content) }
    if detailed_features ∧ ¬output_dir.isEmpty then
      let (detailed_specs, k'', fs') := generate_detailed_features llm k' fs base output_dir
      ({ base with detailed_features := some detailed_specs }, k'', fs')
    else
      (base, k', fs)

/-- `FeaturePlannerAgent.refine_features`. -/
def refine_features (llm : LLM) (k : Nat) (features : FeaturesArtifact)
    (feedback : String) : FeaturesArtifact × Nat :=
  let prompt := "\nOriginal Feature Plan:\n" ++ features.features_content ++
    "\n\nFeedback:\n" ++ feedback ++
    "\n\nPlease refine the feature plan based on the feedback provided. Adjust priorities and add/remove features as needed.\n"
  match llmComplete llm k prompt
      "You are refining a feature plan based on feedback. Balance user needs with technical constraints." with
  | (.ok refined_content, k') =>
    match features.metadata with
    | none => (features, k')
    | some m =>
      ({ features with
         features_content := refined_content
         metadata := some { m with refined := true, feedback := some feedback }
         feature_categories := some (extract_feature_categories refined_content)
         timeline := some (extract_timeline refined_content) }, k')
  | (.error _, k') => (features, k')

/-! ## DocumentWriterAgent (src/agents/document_writer.py) -/

/-- `DocumentWriterAgent.generate_brd`. -/
def generate_brd (cfg : Config) (llm : LLM) (k : Nat)
    (analysis : AnalysisArtifact) (features : FeaturesArtifact) :
    DocumentArtifact × Nat :=
  match llmComplete llm k (brdPrompt analysis.analysis_content features.features_content)
      "You are a business analyst creating a formal Business Requirements Document. Be comprehensive and professional." with
  | (.ok brd_content, k') =>
    ({ document_type := "brd"
       content := brd_content
       metadata := some { agent := "DocumentWriter", version := some cfg.current_version,
                          inputs := ["analysis", "features"],
                          document_version := some "1.0" }
       sections := extract_sections brd_content
       requirements := some (extract_requirements brd_content) }, k')
  | (.error e, k') =>
    ({ error := some e, document_type := "brd", content := ""
       metadata := some { agent := "DocumentWriter", error := true } }, k')

/-- `DocumentWriterAgent.generate_srs`. -/
def generate_srs (cfg : Config) (llm : LLM) (k : Nat)
    (analysis : AnalysisArtifact) (architecture : ArchitectureArtifact)
    (features : FeaturesArtifact) : DocumentArtifact × Nat :=
  match llmComplete llm k
      (srsPrompt analysis.analysis_content architecture.architecture_content
        features.features_content)
      "You are a technical writer creating a detailed Software Requirements Specification. Include technical details and specifications." with
  | (.ok srs_content, k') =>
    ({ document_type := "srs"
       content := srs_content
       metadata := some { agent := "DocumentWriter", version := some cfg.current_version,
                          inputs := ["analysis", "architecture", "features"],
                          document_version := some "1.0" }
       sections := extract_sections srs_content
       technical_requirements := some (extract_technical_requirements srs_content) }, k')
  | (.error e, k') =>
    ({ error := some e, document_type := "srs", content := ""
       metadata := some { agent := "DocumentWriter", error := true } }, k')

/-- `DocumentWriterAgent.refine_document`. -/
def refine_document (llm : LLM) (k : Nat) (document : DocumentArtifact)
    (feedback : String) : DocumentArtifact × Nat :=
  let doc_type := document.document_type
  let prompt := "\nOriginal " ++ pyUpper doc_type ++ ":\n" ++ document.content ++
    "\n\nFeedback:\n" ++ feedback ++
    "\n\nPlease refine the " ++ pyUpper doc_type ++
    " based on the feedback provided. Maintain professional formatting and completeness.\n"
  match llmComplete llm k prompt
      ("You are refining a " ++ pyUpper doc_type ++
        " based on feedback. Maintain document structure and professionalism.") with
  | (.ok refined_content, k') =>
    match document.metadata with
    | none => (document, k')
    | some m =>
      let base :=
        { document with
          content := refined_content
          metadata := some { m with refined := true, feedback := some feedback }
          sections := extract_sections refined_content }
      if doc_type = "brd" then
        ({ base with requirements := some (extract_requirements refined_content) }, k')
      else if doc_type = "srs" then
        let upd := { base with technical_requirements := some (extract_technical_requirements refined_content) }
        (upd, k')
      else
        (base, k')
  | (.error _, k') => (document, k')

/-- `RefinerAgent.refine_content`. -/
def refine_content (cfg : Config) (llm : LLM) (k : Nat)
    (content feedback content_type : String) : RefinementResult × Nat :=
  let refinement_strategy := analyze_feedback feedback
  let prompt := create_refinement_prompt content feedback content_type refinement_strategy
  match llmComplete llm k prompt
      ("You are an expert editor refining " ++ content_type ++
        ". Focus on addressing feedback while maintaining quality.") with
  | (.ok refined_content, k') =>
    ({ original_content := content
       refined_content := refined_content
       feedback := feedback
       content_type := some content_type
       refinement_strategy := some refinement_strategy
       metadata := some { agent := "Refiner", version := some cfg.current_version,
                          refinement_round := some 1 }
       improvements := identify_improvements content refined_content }, k')
  | (.error e, k') =>
    ({ error := some e
       original_content := content
       refined_content := content
       feedback := feedback
       metadata := some { agent := "Refiner", error := true } }, k')

/-! ## Saved file contents (the f-strings of the save_* methods) -/

/-- `AnalyzerAgent.save_analysis` file body (`metadata` carries no
`timestamp` key, so the Generated line always prints `Unknown`). -/
def analysisFileContent (a : AnalysisArtifact) : String :=
  "# Project Analysis Overview\n\n## Raw Requirements\n" ++ a.raw_requirements ++
  "\n\n## Analysis Content\n" ++ a.analysis_content ++
  "\n\n## Metadata\n- Agent: " ++ metaAgent a.metadata ++
  "\n- Version: " ++ metaVersion a.metadata ++
  "\n- Generated: Unknown\n"

def bulletJoin (xs : List String) : String :=
  joinNL (xs.map (fun x => "- " ++ x))

/-- `ArchitectAgent.save_architecture` file body. -/
def architectureFileContent (a : ArchitectureArtifact) : String :=
  let stack := a.technology_stack.getD {}
  "# System Architecture Design\n\n## Architecture Overview\n" ++
  a.architecture_content ++
  "\n\n## System Components\n" ++ bulletJoin (a.components.getD []) ++
  "\n\n## Technology Stack\n\n### Backend\n" ++ bulletJoin stack.backend ++
  "\n\n### Frontend\n" ++ bulletJoin stack.frontend ++
  "\n\n### Mobile\n" ++ bulletJoin stack.mobile ++
  "\n\n### Database\n" ++ bulletJoin stack.database ++
  "\n\n### Infrastructure\n" ++ bulletJoin stack.infrastructure ++
  "\n\n## Metadata\n- Agent: " ++ metaAgent a.metadata ++
  "\n- Version: " ++ metaVersion a.metadata ++
  "\n- Based on: " ++ ((a.metadata.bind (fun m => m.based_on)).getD "Unknown") ++ "\n"

/-- `FeaturePlannerAgent.save_feature_plan` file body. -/
def featurePlanFileContent (f : FeaturesArtifact) : String :=
  let cats := f.feature_categories.getD {}
  let timeline := f.timeline.getD []
  "# Feature Plan\n\n## Feature Overview\n" ++ f.features_content ++
  "\n\n## Feature Categories\n\n### Core Features (Must-Have)\n" ++
  bulletJoin cats.core ++
  "\n\n### Enhanced Features (Should-Have)\n" ++ bulletJoin cats.enhanced ++
  "\n\n### Optional Features (Nice-to-Have)\n" ++ bulletJoin cats.optional ++
  "\n\n## Implementation Timeline\n" ++
  joinNL (timeline.map (fun p => "**" ++ p.1 ++ "**: " ++ p.2)) ++
  "\n\n## Metadata\n- Agent: " ++ metaAgent f.metadata ++
  "\n- Version: " ++ metaVersion f.metadata ++
  "\n- Based on: " ++ String.intercalate ", " (metaInputs f.metadata) ++ "\n"

/-- `DocumentWriterAgent.save_document` file body. -/
def documentFileContent (cfg : Config) (d : DocumentArtifact) : String :=
  "# " ++ pyUpper d.document_type ++ " - " ++ cfg.project_name ++ "\n\n" ++
  d.content ++
  "\n\n---\n\n## Document Metadata\n- Document Type: " ++ pyUpper d.document_type ++
  "\n- Version: " ++ ((d.metadata.bind (fun m => m.document_version)).getD "1.0") ++
  "\n- Generated by: " ++ metaAgent d.metadata ++
  "\n- Based on: " ++ String.intercalate ", " (metaInputs d.metadata) ++
  "\n- Project Version: " ++ metaVersion d.metadata ++ "\n"

/-- `RefinerAgent.save_refinement` file body for a single (non-iterative)
refinement result. -/
def refinementFileContent (r : RefinementResult) : String :=
  let info := "\n## Refinement Summary\n- Strategy: " ++
    (r.refinement_strategy.getD "Unknown") ++
    "\n- Improvements: " ++ String.intercalate ", " r.improvements ++
    "\n- Agent: " ++ metaAgent r.metadata ++ "\n"
  r.refined_content ++ "\n\n---\n" ++ info ++ "\n"

/-! ## Directory-level validation (`ValidatorAgent.validate_project_output`) -/

/-- Aggregate result of `validate_project_output`. -/
structure ProjectValidation where
  overall_valid : Bool := true
  files : List (String × ValidationResult) := []
  total_files : Nat := 0
  valid_files : Nat := 0
  average_score : Rat := 0
  deriving Repr, DecidableEq

/-- `os.path.basename`. -/
def basename (path : String) : String :=
  match (splitCh '/' path.data).getLast? with
  | some l => ⟨l⟩
  | none => ""

/-- Document kind inference from the file name (`'brd' in filename`,
then `'srs' in filename`, else markdown). -/
def inferDocType (path : String) : String :=
  let filename := pyLower (basename path)
  if pyContains "brd" filename then "brd"
  else if pyContains "srs" filename then "srs"
  else "markdown"

/-- `ValidatorAgent.validate_project_output` over the modelled file
system: walk every `.md` file under the output directory, validate each
with the inferred kind, and aggregate (mean score; `overall_valid`
requires every file valid). -/
def validate_project_output (fs : List (String × String)) (output_dir : String) :
    ProjectValidation :=
  let md_files := fs.filter
    (fun p => pyStartsWith output_dir p.1 && pyEndsWith ".md" p.1)
  let results := md_files.map
    (fun p => (p.1, validate_document p.2 (inferDocType p.1)))
  let total_score : Int := (results.map (fun r => r.2.score)).sum
  let valid_count := (results.filter (fun r => r.2.valid)).length
  { overall_valid := decide (valid_count = results.length)
    files := results
    total_files := results.length
    valid_files := valid_count
    average_score := if results.length = 0 then 0
                     else (total_score : Rat) / (results.length : Rat) }

/-! ## Orchestrator (src/orchestrator.py) -/

/-- World state threaded through a run: the files written so far, the
number of vector-index insertions (`add_document` calls), and the index
of the next completion call. -/
structure W where
  fs : List (String × String) := []
  vcount : Nat := 0
  k : Nat := 0
  deriving Repr

/-- `state_dirs`. -/
def state_dir : Nat → String
  | 1 => "state_1_analysis"
  | 2 => "state_2_architecture"
  | 3 => "state_3_features"
  | 4 => "state_4_documents"
  | 5 => "state_5_validation"
  | 6 => "state_6_final"
  | _ => ""

structure AnalysisStage where
  status : String := ""
  result : Option AnalysisArtifact := none
  files : List String := []
  error : Option String := none
  deriving Repr, DecidableEq

structure ArchStage where
  status : String := ""
  result : Option ArchitectureArtifact := none
  files : List String := []
  error : Option String := none
  deriving Repr, DecidableEq

structure FeaturesStage where
  status : String := ""
  result : Option FeaturesArtifact := none
  files : List String := []
  detailed_features : DetailedResult := {}
  error : Option String := none
  deriving Repr, DecidableEq

structure DocumentsStage where
  status : String := ""
  result : Option (List (String × DocumentArtifact)) := none
  files : List String := []
  error : Option String := none
  deriving Repr, DecidableEq

structure ValidationStage where
  status : String := ""
  result : Option ProjectValidation := none
  files : List String := []
  error : Option String := none
  deriving Repr, DecidableEq

structure FinalStage where
  status : String := ""
  report_content : Option String := none
  files : List String := []
  error : Option String := none
  deriving Repr, DecidableEq

/-- The orchestrator object.  `build_state` is assigned `{}` in
`__init__` and — notably — never written anywhere else in the source. -/
structure Orch where
  version : String
  output_base : String
  build_state : List (String × DocumentsStage) := []
  deriving Repr

/-- `AIBuilderOrchestrator.__init__` (directory creation is a
collaborator side effect, modelled as succeeding). -/
def mkOrch (cfg : Config) (output_base : String) : Orch :=
  { version := cfg.current_version, output_base := output_base, build_state := [] }

/-- `AIBuilderOrchestrator._run_analysis`.  The analyzer call happens
first; then `context.get("business_needs")` raises `AttributeError` when
the caller passed `context=None` (the source reads the raw argument, not
the `context or {}` stored in the build result), failing the stage.  When
both optional context keys are present, `analyze_bnmp` runs (consuming a
call) and its result is discarded, exactly as in the source. -/
def run_analysis (cfg : Config) (llm : LLM) (orch : Orch) (w : W)
    (requirements : String) (context : Option Ctx) : AnalysisStage × W :=
  let (analysis_result, k₁) := analyze_requirements cfg llm w.k requirements context
  match context with
  | none =>
    ({ status := "failed", error := some "AttributeError" }, { w with k := k₁ })
  | some c =>
    let k₂ := match c.business_needs, c.market_context with
      | some bn, some mc => (analyze_bnmp cfg llm k₁ bn mc).2
      | _, _ => k₁
    let path := orch.output_base ++ "/" ++ state_dir 1 ++ "/analysis_overview.md"
    ({ status := "completed", result := some analysis_result, files := [path] },
     { fs := dictSet w.fs path (analysisFileContent analysis_result)
       vcount := w.vcount + 1
       k := k₂ })

/-- `AIBuilderOrchestrator._run_architecture`.  `design_architecture`
catches its own provider failure and returns a degraded artifact, so no
exception reaches this stage boundary and the stage always records
`completed` (the `failed` branch of the source is reachable only through
collaborator I/O faults, which the model excludes). -/
def run_architecture (cfg : Config) (llm : LLM) (orch : Orch) (w : W)
    (analysis_state : AnalysisStage) : ArchStage × W :=
  let analysis_result := analysis_state.result.getD {}
  let (architecture_result, k₁) := design_architecture cfg llm w.k analysis_result ""
  let path := orch.output_base ++ "/" ++ state_dir 2 ++ "/system_architecture.md"
  ({ status := "completed", result := some architecture_result, files := [path] },
   { fs := dictSet w.fs path (architectureFileContent architecture_result)
     vcount := w.vcount + 1
     k := k₁ })

/-- `AIBuilderOrchestrator._run_feature_planning`.  The source hardcodes
`detailed_features=True` in the `plan_features` call, ignoring the
orchestrator-level flag. -/
def run_feature_planning (cfg : Config) (llm : LLM) (orch : Orch) (w : W)
    (analysis_state : AnalysisStage) (architecture_state : ArchStage)
    (_generate_detailed_features : Bool) : FeaturesStage × W :=
  let analysis_result := analysis_state.result.getD {}
  let architecture_result := architecture_state.result.getD {}
  let output_dir := orch.output_base ++ "/" ++ state_dir 3
  let (features_result, k₁, fs₁) :=
    plan_features cfg llm w.k w.fs analysis_result architecture_result true output_dir
  let path := output_dir ++ "/feature_list.md"
  let fs₂ := dictSet fs₁ path (featurePlanFileContent features_result)
  let detailed := features_result.detailed_features.getD {}
  let detailed_files := detailed.entries.map (fun e => e.2.file_path)
  ({ status := "completed", result := some features_result,
     files := [path] ++ detailed_files, detailed_features := detailed },
   { fs := fs₂
     vcount := w.vcount + detailed.entries.length + 1
     k := k₁ })

/-- `AIBuilderOrchestrator._run_document_generation`. -/
def run_document_generation (cfg : Config) (llm : LLM) (orch : Orch) (w : W)
    (analysis_state : AnalysisStage) (architecture_state : ArchStage)
    (features_state : FeaturesStage) : DocumentsStage × W :=
  let analysis_result := analysis_state.result.getD {}
  let architecture_result := architecture_state.result.getD {}
  let features_result := features_state.result.getD {}
  let output_dir := orch.output_base ++ "/" ++ state_dir 4
  let (brd_result, k₁) := generate_brd cfg llm w.k analysis_result features_result
  let brd_path := output_dir ++ "/brd.md"
  let fs₁ := dictSet w.fs brd_path (documentFileContent cfg brd_result)
  let (srs_result, k₂) :=
    generate_srs cfg llm k₁ analysis_result architecture_result features_result
  let srs_path := output_dir ++ "/srs.md"
  let fs₂ := dictSet fs₁ srs_path (documentFileContent cfg srs_result)
  let documents := dictSet (dictSet [] "brd" brd_result) "srs" srs_result
  ({ status := "completed", result := some documents, files := [brd_path, srs_path] },
   { fs := fs₂, vcount := w.vcount + 2, k := k₂ })

/-- Placeholder for `json.dump` of the validation result; no claim reads
this file's text (its path does not end in `.md`, so the validator walk
never revisits it either). -/
def validationReportJson (_v : ProjectValidation) : String :=
  "validation_report.json"

/-- `AIBuilderOrchestrator._run_validation`. -/
def run_validation (orch : Orch) (w : W) : ValidationStage × W :=
  let validation_result := validate_project_output w.fs orch.output_base
  let path := orch.output_base ++ "/" ++ state_dir 5 ++ "/validation_report.json"
  ({ status := "completed", result := some validation_result, files := [path] },
   { w with fs := dictSet w.fs path (validationReportJson validation_result) })

/-- `AIBuilderOrchestrator._generate_final_report`.  At report time
`duration` is not yet in the build dict, so the report always shows
`0.00 seconds`; the wall clock is the external `nowStr`. -/
def finalReportContent (cfg : Config) (orch : Orch) (w : W)
    (requirements nowStr : String) (aS : AnalysisStage) (archS : ArchStage)
    (fS : FeaturesStage) (dS : DocumentsStage) (vS : ValidationStage) : String :=
  let allFiles := aS.files ++ archS.files ++ fS.files ++ dS.files ++ vS.files
  "# " ++ cfg.project_name ++ " - Final Report\n\n## Project Overview\n**Version**: " ++
  orch.version ++ "\n**Generated**: " ++ nowStr ++
  "\n**Duration**: 0.00 seconds\n\n## Requirements\n" ++ requirements ++
  "\n\n## Build Summary\n\n### Analysis Phase\n- Status: " ++ aS.status ++
  "\n- Files: " ++ toString aS.files.length ++
  "\n\n### Architecture Phase\n- Status: " ++ archS.status ++
  "\n- Files: " ++ toString archS.files.length ++
  "\n\n### Features Phase\n- Status: " ++ fS.status ++
  "\n- Files: " ++ toString fS.files.length ++
  "\n\n### Documents Phase\n- Status: " ++ dS.status ++
  "\n- Files: " ++ toString dS.files.length ++
  "\n\n### Validation Phase\n- Status: " ++ vS.status ++
  "\n- Overall Valid: " ++ pyBool ((vS.result.map (fun r => r.overall_valid)).getD false) ++
  "\n\n## Generated Files\n" ++ bulletJoin allFiles ++
  "\n\n## Vector Store Statistics\n\x7b'document_count': " ++ toString w.vcount ++
  ", 'collection_name': '" ++ cfg.collection_name ++ "'\x7d" ++
  "\n\n## Project Metadata\n- Author: " ++ cfg.author ++
  "\n- Description: " ++ cfg.description ++
  "\n- LLM Provider: " ++ cfg.provider ++
  "\n- Model: " ++ cfg.model_name ++ "\n"

/-- `AIBuilderOrchestrator._generate_final_report` as a stage. -/
def generate_final_report (cfg : Config) (orch : Orch) (w : W)
    (requirements nowStr : String) (aS : AnalysisStage) (archS : ArchStage)
    (fS : FeaturesStage) (dS : DocumentsStage) (vS : ValidationStage) :
    FinalStage × W :=
  let report := finalReportContent cfg orch w requirements nowStr aS archS fS dS vS
  let path := orch.output_base ++ "/" ++ state_dir 6 ++ "/final_report.md"
  ({ status := "completed", report_content := some report, files := [path] },
   { w with fs := dictSet w.fs path report })

/-- The six per-stage entries of `build_result["states"]`, in insertion
order. -/
structure StatesR where
  analysis : AnalysisStage
  architecture : ArchStage
  features : FeaturesStage
  documents : DocumentsStage
  validation : ValidationStage
  final : FinalStage
  deriving Repr

/-- `build_result` (wall-clock fields omitted: start/end time and
duration are external readings that no claim touches; note the source
never appends to `build_result["files"]`, which stays `[]`). -/
structure BuildResult where
  requirements : String
  context : Ctx
  states : StatesR
  files : List String := []
  version : String
  deriving Repr

/-- `AIBuilderOrchestrator.build_project`: the fixed six-stage pipeline.
The orchestrator object is not modified (in particular `build_state` is
never written), so no updated `Orch` is returned. -/
def build_project (cfg : Config) (llm : LLM) (orch : Orch) (w : W)
    (requirements : String) (context : Option Ctx)
    (generate_detailed_features_flag : Bool) (nowStr : String) :
    BuildResult × W :=
  let (aS, w₁) := run_analysis cfg llm orch w requirements context
  let (archS, w₂) := run_architecture cfg llm orch w₁ aS
  let (fS, w₃) := run_feature_planning cfg llm orch w₂ aS archS
    generate_detailed_features_flag
  let (dS, w₄) := run_document_generation cfg llm orch w₃ aS archS fS
  let (vS, w₅) := run_validation orch w₄
  let (finS, w₆) := generate_final_report cfg orch w₅ requirements nowStr aS archS fS dS vS
  ({ requirements := requirements
     context := context.getD {}
     states := ⟨aS, archS, fS, dS, vS, finS⟩
     files := []
     version := orch.version }, w₆)

/-- Outcome dict of `refine_with_feedback`. -/
structure RefineOutcome where
  status : String
  refined_state : Option String := none
  error : Option String := none
  deriving Repr, DecidableEq

/-- `AIBuilderOrchestrator.refine_with_feedback`.  For the `documents`
target it consults `self.build_state`, which `build_project` never
populates; the per-document refinement loop is therefore dead code in the
source, preserved here verbatim. -/
def refine_with_feedback (cfg : Config) (llm : LLM) (orch : Orch) (w : W)
    (feedback : String) (target_state : String) : RefineOutcome × W :=
  if target_state = "documents" then
    let docs_state :=
      match orch.build_state.find? (fun p => p.1 == "documents") with
      | some p => p.2
      | none => {}
    match docs_state.result with
    | some documents =>
      if documents.isEmpty then
        ({ status := "completed", refined_state := some target_state }, w)
      else
        let output_dir := orch.output_base ++ "/" ++ state_dir 4 ++ "/refined"
        let w' := documents.foldl
          (fun (acc : W) (doc : String × DocumentArtifact) =>
            let (refined_doc, k') :=
              refine_content cfg llm acc.k doc.2.content feedback doc.1
            let path := output_dir ++ "/refined_" ++ doc.1 ++ ".md"
            { acc with fs := dictSet acc.fs path (refinementFileContent refined_doc)
                       k := k' })
          w
        ({ status := "completed", refined_state := some target_state }, w')
    | none =>
      ({ status := "completed", refined_state := some target_state }, w)
  else
    ({ status := "completed", refined_state := some target_state }, w)

/-! ## Concrete fixtures used by counterexamples and witnesses -/

/-- All features of a plan in extraction order (the `all_features` list
built at the top of `generate_detailed_features`). -/
def allFeatures (features : FeaturesArtifact) : List String :=
  let cats := features.feature_categories.getD {}
  cats.core ++ cats.enhanced ++ cats.optional

/-- A feature plan whose extracted categories hold three feature strings. -/
def feats3 : FeaturesArtifact :=
  { feature_categories := some { core := ["alpha feature", "beta feature", "gamma feature"] } }

/-- A provider trace that raises on the second call (index 1) only. -/
def llmFailSecond : LLM := fun k =>
  if k = 1 then .error "provider down" else .ok "generated detail"

/-- A provider trace that always succeeds. -/
def llmAllOk : LLM := fun _ => .ok "generated detail"

/-- A provider trace that raises exactly on the architecture-stage call of
a detail-free pipeline run (call index 1: analysis is call 0 when the
context carries no business-needs keys). -/
def llmArchFail : LLM := fun k =>
  if k = 1 then .error "provider down"
  else .ok "# Overview\nGenerated content line one\nline two\nline three\nline four"

/-- A BRD body containing three of the four mandatory section titles (and
well-formed markdown) but no occurrence of "Executive Summary". -/
def c4Doc : String :=
  "# Business Objectives\n## Functional Requirements\n## Non-functional Requirements\ntext here\nmore text here"

/-! ## Helper lemmas -/

lemma dictSet_fresh {β : Type} (m : List (String × β)) (k : String) (v : β)
    (h : ∀ p ∈ m, p.1 ≠ k) : dictSet m k v = m ++ [(k, v)] := by
  unfold dictSet
  rw [if_neg]
  simp only [List.any_eq_true, not_exists, not_and]
  intro p hp
  simpa using h p hp

/-- When every completion call of the fan-out succeeds, the loop of
`generate_detailed_features` visits every feature, one call per feature,
and (for fresh, pairwise distinct features) produces one mapping entry per
feature in order. -/
lemma detailLoop_all_ok (llm : LLM) (dir : String) (L : List String) :
    ∀ (k : Nat) (fsS : List (String × String)) (acc : List (String × FeatDetail)),
    (∀ i, i < L.length → (llm (k + i)).isOk = true) →
    L.Nodup → (∀ f ∈ L, f ∉ acc.map Prod.fst) →
    ∃ entries fs', detailLoop llm dir k fsS acc L = (.ok entries, k + L.length, fs')
      ∧ entries.length = acc.length + L.length
      ∧ entries.map Prod.fst = acc.map Prod.fst ++ L := by
  induction L with
  | nil =>
    intro k fsS acc _ _ _
    exact ⟨acc, fsS, rfl, by simp, by simp⟩
  | cons f rest ih =>
    intro k fsS acc hok hnd hfresh
    have h0 := hok 0 (by simp)
    rw [Nat.add_zero] at h0
    rcases hv : llm k with e | v
    · rw [hv] at h0; simp [Except.isOk, Except.toBool] at h0
    · have hfreshf : ∀ p ∈ acc, p.1 ≠ f := by
        intro p hp hpf
        exact hfresh f (by simp) (by rw [← hpf]; exact List.mem_map_of_mem Prod.fst hp)
      set d : FeatDetail := { content := v, file_path := dir ++ "/features/" ++ safeName f ++ ".md" } with hd
      have hacc : dictSet acc f d = acc ++ [(f, d)] := dictSet_fresh _ _ _ hfreshf
      have hok' : ∀ i, i < rest.length → (llm (k + 1 + i)).isOk = true := by
        intro i hi
        have := hok (i + 1) (by simp; omega)
        simpa [Nat.add_assoc, Nat.add_comm 1 i] using this
      have hnd' : rest.Nodup := (List.nodup_cons.mp hnd).2
      have hfresh' : ∀ g ∈ rest, g ∉ (dictSet acc f d).map Prod.fst := by
        intro g hg
        rw [hacc]
        simp only [List.map_append, List.mem_append, List.map_cons, List.map_nil,
          List.mem_singleton, List.mem_cons]
        rintro (hmem | hgf)
        · exact hfresh g (by simp [hg]) hmem
        · simp at hgf
          exact (List.nodup_cons.mp hnd).1 (hgf ▸ hg)
      obtain ⟨entries, fs', heq, hlen, hkeys⟩ :=
        ih (k + 1) (dictSet fsS (dir ++ "/features/" ++ safeName f ++ ".md") v)
          (dictSet acc f d) hok' hnd' hfresh'
      refine ⟨entries, fs', ?_, ?_, ?_⟩
      · have hidx : k + (f :: rest).length = k + 1 + rest.length := by
          simp [List.length_cons]; omega
        rw [hidx]
        simp only [detailLoop, llmComplete, hv]
        exact heq
      · rw [hlen, hacc]
        simp [List.length_append, List.length_cons]
        omega
      · rw [hkeys, hacc]
        simp

/-- When the j-th call of the fan-out raises after j successful calls,
the loop of `generate_detailed_features` stops right there: the exception
propagates with exactly j+1 calls consumed. -/
lemma detailLoop_first_error (llm : LLM) (dir : String) (L : List String) :
    ∀ (k : Nat) (fsS : List (String × String)) (acc : List (String × FeatDetail))
      (j : Nat) (e : String),
    j < L.length → (∀ i, i < j → (llm (k + i)).isOk = true) → llm (k + j) = .error e →
    ∃ fs', detailLoop llm dir k fsS acc L = (.error e, k + j + 1, fs') := by
  induction L with
  | nil => intro k fsS acc j e hj _ _; simp at hj
  | cons f rest ih =>
    intro k fsS acc j e hj hok herr
    cases j with
    | zero =>
      rw [Nat.add_zero] at herr
      refine ⟨fsS, ?_⟩
      simp only [detailLoop, llmComplete, herr]
    | succ j' =>
      have h0 := hok 0 (Nat.succ_pos j')
      rw [Nat.add_zero] at h0
      rcases hv : llm k with e0 | v
      · rw [hv] at h0; simp [Except.isOk, Except.toBool] at h0
      · have hok' : ∀ i, i < j' → (llm (k + 1 + i)).isOk = true := by
          intro i hi
          have := hok (i + 1) (by omega)
          simpa [Nat.add_assoc, Nat.add_comm 1 i] using this
        have herr' : llm (k + 1 + j') = .error e := by
          have : k + 1 + j' = k + (j' + 1) := by omega
          rw [this]; exact herr
        obtain ⟨fs', heq⟩ := ih (k + 1) (dictSet fsS (dir ++ "/features/" ++ safeName f ++ ".md") v)
          (dictSet acc f { content := v, file_path := dir ++ "/features/" ++ safeName f ++ ".md" })
          j' e (by simpa using Nat.lt_of_succ_lt_succ hj) hok' herr'
        refine ⟨fs', ?_⟩
        have hidx : k + (j' + 1) + 1 = k + 1 + j' + 1 := by omega
        rw [hidx]
        simp only [detailLoop, llmComplete, hv]
        exact heq

lemma gdf_eq (llm : LLM) (k : Nat) (fs : List (String × String))
    (features : FeaturesArtifact) (dir : String) :
    generate_detailed_features llm k fs features dir =
      match detailLoop llm dir k fs [] (allFeatures features) with
      | (.ok entries, k', fs') => ({ entries := entries, error := none }, k', fs')
      | (.error e, k', fs') => ({ entries := [], error := some e }, k', fs') := rfl

lemma design_architecture_error (cfg : Config) (llm : LLM) (k : Nat)
    (a : AnalysisArtifact) (r e : String) (h : llm k = .error e) :
    (design_architecture cfg llm k a r).1 =
      { error := some e, base_analysis := a, architecture_content := "",
        metadata := some { agent := "Architect", error := true } } := by
  simp [design_architecture, llmComplete, h]

lemma run_architecture_result (cfg : Config) (llm : LLM) (orch : Orch) (w : W)
    (aS : AnalysisStage) :
    (run_architecture cfg llm orch w aS).1.result =
      some (design_architecture cfg llm w.k (aS.result.getD {}) "").1 := rfl

/-- With a context dict carrying no business-needs keys, the analysis
stage consumes exactly one completion call. -/
lemma run_analysis_k (cfg : Config) (llm : LLM) (orch : Orch) (w : W) (req : String) :
    ((run_analysis cfg llm orch w req
        (some { business_needs := none, market_context := none })).2).k = w.k + 1 := by
  rcases h0 : llm w.k with e0 | v0 <;>
    simp [run_analysis, analyze_requirements, llmComplete, h0]

lemma validate_document_errors_eq (content doc_type : String) :
    (validate_document content doc_type).errors =
      (check_basic_format content).1 ++
      (if doc_type = "markdown" ∨ doc_type = "brd" ∨ doc_type = "srs" then
        check_markdown_structure content else ([], [])).1 ++
      (if doc_type = "brd" ∨ doc_type = "srs" then
        check_document_sections content doc_type else []) := rfl

lemma validate_document_score_eq (content doc_type : String) :
    (validate_document content doc_type).score =
      calculate_score (validate_document content doc_type).errors.length
        (validate_document content doc_type).warnings.length := rfl

lemma validate_document_valid_eq (content doc_type : String) :
    (validate_document content doc_type).valid =
      decide (70 ≤ (validate_document content doc_type).score) := rfl

lemma hasSub_head_mem (a : Nat) (t l : List Nat) (h : hasSub (a :: t) l = true) :
    a ∈ l := by
  induction l with
  | nil => simp [hasSub, List.isEmpty] at h
  | cons b l' ih =>
    simp only [hasSub, Bool.or_eq_true] at h
    rcases h with h | h
    · have : a = b := by
        simp only [List.isPrefixOf, Bool.and_eq_true, beq_iff_eq] at h
        exact h.1
      simp [this]
    · exact List.mem_cons_of_mem b (ih h)

lemma lowerCode_not_upper (a : Nat) : ¬(65 ≤ lowerCode a ∧ lowerCode a ≤ 90) := by
  unfold lowerCode
  split <;> omega

/-! ## Claim theorems -/

/-- C1 (counterexample): with 3 extracted feature strings and a provider
that raises on the 2nd call only, `generate_detailed_features` does not
return 3 entries — the whole batch is replaced by the single error
mapping, so the first feature's generated entry is lost as well. -/
theorem c1_batch_abort_counterexample :
    (generate_detailed_features llmFailSecond 0 [] feats3 "out").1 =
      { entries := [], error := some "provider down" }
  ∧ (allFeatures feats3).length = 3 := by decide

/-- C1 (amended): `generate_detailed_features` issues one completion call
per feature sequentially up to and including the first raising call.  If
no call raises, it returns one entry per (distinct) feature, in extraction
order, after exactly N calls; if the j-th call raises after j successes,
the function returns the single-entry error mapping after j+1 calls,
discarding the entries already built, and no exception escapes (the
embedding is a total function). -/
theorem c1_detailed_features_amended (llm : LLM) (k : Nat)
    (fs : List (String × String)) (features : FeaturesArtifact) (dir : String) :
    ((∀ i, i < (allFeatures features).length → (llm (k + i)).isOk = true) →
      (allFeatures features).Nodup →
      ∃ entries fs', generate_detailed_features llm k fs features dir =
          ({ entries := entries, error := none }, k + (allFeatures features).length, fs')
        ∧ entries.length = (allFeatures features).length
        ∧ entries.map Prod.fst = allFeatures features)
  ∧ (∀ j e, j < (allFeatures features).length →
      (∀ i, i < j → (llm (k + i)).isOk = true) → llm (k + j) = .error e →
      ∃ fs', generate_detailed_features llm k fs features dir =
          ({ entries := [], error := some e }, k + j + 1, fs')) := by
  constructor
  · intro hok hnd
    obtain ⟨entries, fs', heq, hlen, hkeys⟩ :=
      detailLoop_all_ok llm dir (allFeatures features) k fs [] hok hnd (by simp)
    refine ⟨entries, fs', ?_, by simpa using hlen, by simpa using hkeys⟩
    rw [gdf_eq, heq]
  · intro j e hj hok herr
    obtain ⟨fs', heq⟩ :=
      detailLoop_first_error llm dir (allFeatures features) k fs [] j e hj hok herr
    refine ⟨fs', ?_⟩
    rw [gdf_eq, heq]

/-- C1 (witness): the amended theorem applied to the three-feature plan,
once with an always-succeeding provider and once with a provider raising
on the second call. -/
theorem c1_detailed_features_witness :
    (∃ entries fs', generate_detailed_features llmAllOk 0 [] feats3 "out" =
        ({ entries := entries, error := none }, 0 + (allFeatures feats3).length, fs')
      ∧ entries.length = (allFeatures feats3).length
      ∧ entries.map Prod.fst = allFeatures feats3)
  ∧ (∃ fs', generate_detailed_features llmFailSecond 0 [] feats3 "out" =
      ({ entries := [], error := some "provider down" }, 0 + 1 + 1, fs')) :=
  ⟨(c1_detailed_features_amended llmAllOk 0 [] feats3 "out").1 (by decide) (by decide),
   (c1_detailed_features_amended llmFailSecond 0 [] feats3 "out").2 1 "provider down"
     (by decide) (by decide) rfl⟩

/-- C2 (counterexample): with the provider raising only on the
architecture-stage call, the build records the architecture stage as
"completed" (with a degraded artifact), not "failed" as the claim
states. -/
theorem c2_architecture_status_counterexample :
    (build_project {} llmArchFail (mkOrch {} "output") {}
        "Build a blog with posts and comments" (some {}) false
        "2026-01-01 00:00:00").1.states.architecture.status = "completed"
  ∧ "completed" ≠ "failed" := ⟨rfl, by decide⟩

/-- C2 (amended): when the provider raises only on the architecture-stage
call (call index 1 for a context without business-needs keys), every one
of the six stages — architecture included — is recorded with status
"completed"; the architecture stage carries a degraded artifact whose
`error` field holds the exception text and whose content is empty, while
the analysis stage's artifact is error-free.  The pipeline never aborts
early. -/
theorem c2_pipeline_architecture_failure_amended (cfg : Config) (llm : LLM)
    (orch : Orch) (req now : String) (flag : Bool) (e : String)
    (hfail : llm 1 = .error e)
    (hok : ∀ j, j ≠ 1 → (llm j).isOk = true) :
    (build_project cfg llm orch {} req (some {}) flag now).1.states.analysis.status = "completed"
  ∧ (build_project cfg llm orch {} req (some {}) flag now).1.states.architecture.status = "completed"
  ∧ (build_project cfg llm orch {} req (some {}) flag now).1.states.features.status = "completed"
  ∧ (build_project cfg llm orch {} req (some {}) flag now).1.states.documents.status = "completed"
  ∧ (build_project cfg llm orch {} req (some {}) flag now).1.states.validation.status = "completed"
  ∧ (build_project cfg llm orch {} req (some {}) flag now).1.states.final.status = "completed"
  ∧ (∃ an, (build_project cfg llm orch {} req (some {}) flag now).1.states.analysis.result = some an
      ∧ an.error = none)
  ∧ (∃ ar, (build_project cfg llm orch {} req (some {}) flag now).1.states.architecture.result = some ar
      ∧ ar.error = some e ∧ ar.architecture_content = "") := by
  refine ⟨rfl, rfl, rfl, rfl, rfl, rfl, ?_, ?_⟩
  · have h0 := hok 0 (by decide)
    rcases hv : llm 0 with e0 | v0
    · rw [hv] at h0; simp [Except.isOk, Except.toBool] at h0
    · have han : (build_project cfg llm orch {} req (some {}) flag now).1.states.analysis.result
          = some (analyze_requirements cfg llm 0 req
              (some { business_needs := none, market_context := none })).1 := rfl
      rw [han]
      refine ⟨_, rfl, ?_⟩
      simp [analyze_requirements, llmComplete, hv]
  · have harch : (build_project cfg llm orch {} req (some {}) flag now).1.states.architecture.result
        = some (design_architecture cfg llm
            ((run_analysis cfg llm orch {} req (some {})).2).k
            (((run_analysis cfg llm orch {} req (some {})).1).result.getD {}) "").1 := rfl
    rw [run_analysis_k] at harch
    rw [design_architecture_error cfg llm _ _ _ e (by exact hfail)] at harch
    exact ⟨_, harch, rfl, rfl⟩

/-- C2 (witness): the amended theorem applied to the concrete
architecture-failing trace. -/
theorem c2_pipeline_architecture_failure_witness :
    (build_project {} llmArchFail (mkOrch {} "output") {}
        "Build a blog with posts and comments" (some {}) false
        "2026-01-01 00:00:00").1.states.features.status = "completed"
  ∧ (build_project {} llmArchFail (mkOrch {} "output") {}
        "Build a blog with posts and comments" (some {}) false
        "2026-01-01 00:00:00").1.states.final.status = "completed"
  ∧ (∃ ar, (build_project {} llmArchFail (mkOrch {} "output") {}
        "Build a blog with posts and comments" (some {}) false
        "2026-01-01 00:00:00").1.states.architecture.result = some ar
      ∧ ar.error = some "provider down" ∧ ar.architecture_content = "") := by
  have h := c2_pipeline_architecture_failure_amended {} llmArchFail (mkOrch {} "output")
    "Build a blog with posts and comments" "2026-01-01 00:00:00" false "provider down"
    rfl (fun j hj => by simp [llmArchFail, hj, Except.isOk, Except.toBool])
  exact ⟨h.2.2.1, h.2.2.2.2.2.1, h.2.2.2.2.2.2.2⟩

/-- C3 (code evaluated at the failing input): `build_project` leaves the
orchestrator's `build_state` empty (the source never writes it), so
`refine_with_feedback(feedback, "documents")` after a completed build —
whose documents stage did produce artifacts — refines nothing: it makes
no provider call, writes no file under `refined/`, and still reports
status "completed". -/
theorem c3_refine_with_feedback_noop (cfg : Config) (llm : LLM)
    (b req now fb : String) (c : Ctx) (flag : Bool) (w w' : W) :
    (build_project cfg llm (mkOrch cfg b) w req (some c) flag now).1.states.documents.status
      = "completed"
  ∧ ((build_project cfg llm (mkOrch cfg b) w req (some c) flag now).1.states.documents.result).isSome
      = true
  ∧ refine_with_feedback cfg llm (mkOrch cfg b) w' fb "documents" =
      ({ status := "completed", refined_state := some "documents" }, w') :=
  ⟨rfl, rfl, rfl⟩

/-- C4 (counterexample): a BRD body with no "Executive Summary" but with
the other mandatory sections, markdown headers and enough lines receives
exactly the one missing-section error, scores 80, and is reported
`valid=True` — contradicting the claim's "returns valid=False regardless
of the document's other content". -/
theorem c4_missing_section_counterexample :
    pyContains "executive summary" (pyLower c4Doc) = false
  ∧ (validate_document c4Doc "brd").errors ≠ []
  ∧ (validate_document c4Doc "brd").valid = true := by decide

/-- C4 (amended): `validate_document(content, "brd")` reports one error
per missing mandatory BRD section (so at least one error for each missing
section), but `valid` is simply `score >= 70`, so a single missing section
need not make the document invalid; whenever at least two mandatory
sections are missing, the score is at most 60 and `valid` is false. -/
theorem c4_missing_section_amended (content sec : String)
    (hsec : sec ∈ brd_required_sections)
    (hmiss : pyContains (pyLower sec) (pyLower content) = false) :
    ("Missing required section: " ++ sec) ∈ (validate_document content "brd").errors
  ∧ (2 ≤ (brd_required_sections.filter
        (fun s => !pyContains (pyLower s) (pyLower content))).length →
      (validate_document content "brd").valid = false) := by
  constructor
  · rw [validate_document_errors_eq]
    apply List.mem_append_right
    have : ("Missing required section: " ++ sec) ∈ check_document_sections content "brd" := by
      unfold check_document_sections
      simp only [if_pos, reduceIte]
      apply List.mem_map_of_mem
      exact List.mem_filter.mpr ⟨hsec, by simp [hmiss]⟩
    simpa using this
  · intro h2
    have hmem : (validate_document content "brd").errors =
        (check_basic_format content).1 ++
        (check_markdown_structure content).1 ++
        check_document_sections content "brd" := by
      rw [validate_document_errors_eq]; rfl
    have hE : 2 ≤ (validate_document content "brd").errors.length := by
      rw [hmem]
      have h3 : (check_document_sections content "brd").length =
          (brd_required_sections.filter
            (fun s => !pyContains (pyLower s) (pyLower content))).length := by
        unfold check_document_sections
        simp
      simp only [List.length_append]
      omega
    have hscore : (validate_document content "brd").score ≤ 60 := by
      rw [validate_document_score_eq]
      unfold calculate_score
      apply max_le (by norm_num)
      omega
    rw [validate_document_valid_eq]
    simp only [decide_eq_false_iff_not, not_le]
    omega

/-- C4 (witness): the amended theorem applied to a document missing every
mandatory section. -/
theorem c4_missing_section_witness :
    ("Missing required section: " ++ "Executive Summary")
      ∈ (validate_document "just some prose" "brd").errors
  ∧ (validate_document "just some prose" "brd").valid = false := by
  have h := c4_missing_section_amended "just some prose" "Executive Summary"
    (by decide) (by decide)
  exact ⟨h.1, h.2 (by decide)⟩

/-- C5: `validate_document` computes `score = max(0, 100 - 20*e - 5*w)`
over the collected error and warning counts; the score is clamped to
[0, 100], monotonically non-increasing in the counts, and the `valid`
flag holds exactly when the score is at least 70. -/
theorem c5_score_formula (content doc_type : String) (e w e' w' : Nat)
    (he : e ≤ e') (hw : w ≤ w') :
    (validate_document content doc_type).score =
      calculate_score (validate_document content doc_type).errors.length
        (validate_document content doc_type).warnings.length
  ∧ 0 ≤ (validate_document content doc_type).score
  ∧ (validate_document content doc_type).score ≤ 100
  ∧ ((validate_document content doc_type).valid = true ↔
      70 ≤ (validate_document content doc_type).score)
  ∧ calculate_score e' w' ≤ calculate_score e w := by
  refine ⟨rfl, ?_, ?_, ?_, ?_⟩
  · rw [validate_document_score_eq]
    exact le_max_left 0 _
  · rw [validate_document_score_eq]
    unfold calculate_score
    apply max_le (by norm_num)
    omega
  · rw [validate_document_valid_eq]
    exact decide_eq_true_iff
  · unfold calculate_score
    apply max_le_max le_rfl
    omega

/-- C5 (witness): the score facts at a concrete document and concrete
injected counts. -/
theorem c5_score_formula_witness :
    0 ≤ (validate_document c4Doc "brd").score
  ∧ (validate_document c4Doc "brd").score ≤ 100
  ∧ ((validate_document c4Doc "brd").valid = true ↔
      70 ≤ (validate_document c4Doc "brd").score)
  ∧ calculate_score 1 2 ≤ calculate_score 0 0 := by
  have h := c5_score_formula c4Doc "brd" 0 0 1 2 (by decide) (by decide)
  exact ⟨h.2.1, h.2.2.1, h.2.2.2.1, h.2.2.2.2⟩

/-- C6 (counterexample): feedback containing "unclear" together with a
structural keyword selects `structure_improvement`, not
`clarity_optimization` — the structural bucket is tested first. -/
theorem c6_unclear_priority_counterexample :
    pyContains "unclear" (pyLower "unclear structure") = true
  ∧ analyze_feedback "unclear structure" = "structure_improvement"
  ∧ "structure_improvement" ≠ "clarity_optimization" := by decide

/-- C6 (amended): strategy selection is the pure function
`_analyze_feedback` of the feedback text alone (determinism is intrinsic
to the embedding); feedback whose lower-cased form contains "unclear"
selects `clarity_optimization` provided no keyword of the
structure/organize/format/section bucket — which has first-match
priority — is present. -/
theorem c6_unclear_clarity_amended (fb : String)
    (hu : pyContains "unclear" (pyLower fb) = true)
    (hs : ∀ kw ∈ structureKeywords, pyContains kw (pyLower fb) = false) :
    analyze_feedback fb = "clarity_optimization" := by
  unfold analyze_feedback
  rw [if_neg, if_pos]
  · simp only [List.any_eq_true]
    exact ⟨"unclear", by simp [clarityKeywords], hu⟩
  · simp only [List.any_eq_true, not_exists, not_and]
    intro kw hkw
    simp [hs kw hkw]

/-- C6 (witness): the amended theorem at feedback containing "unclear"
and no structural keyword. -/
theorem c6_unclear_clarity_witness :
    analyze_feedback "this is unclear" = "clarity_optimization" :=
  c6_unclear_clarity_amended "this is unclear" (by decide) (by decide)

/-- C7: the sanitized detail-file name derived from any feature string is
at most 50 code points long, consists only of lowercase letters, digits
and the underscore separator, and contains neither '/' (code 47) nor the
substring ".." (code 46 twice); the example feature
"Real-Time Chat/Notifications!" maps to "real_time_chat_notifications". -/
theorem c7_sanitized_filename (feature : List Nat) :
    (sanitize_feature_name feature).length ≤ 50
  ∧ (∀ c ∈ sanitize_feature_name feature,
      (97 ≤ c ∧ c ≤ 122) ∨ (48 ≤ c ∧ c ≤ 57) ∨ c = 95)
  ∧ 47 ∉ sanitize_feature_name feature
  ∧ hasSub [46, 46] (sanitize_feature_name feature) = false
  ∧ sanitize_feature_name (strCodes "Real-Time Chat/Notifications!") =
      strCodes "real_time_chat_notifications" := by
  have hmem : ∀ c ∈ sanitize_feature_name feature,
      (97 ≤ c ∧ c ≤ 122) ∨ (48 ≤ c ∧ c ≤ 57) ∨ c = 95 := by
    intro c hc
    unfold sanitize_feature_name at hc
    have h1 : c ∈ stripUnderscores ((feature.map lowerCode).map
        (fun c => if isAlnumCode c || c == 95 then c else 95)) :=
      List.take_subset 50 _ hc
    have h2 : c ∈ (feature.map lowerCode).map
        (fun c => if isAlnumCode c || c == 95 then c else 95) := by
      unfold stripUnderscores at h1
      rw [List.mem_reverse] at h1
      have h1' := (List.dropWhile_sublist _).subset h1
      rw [List.mem_reverse] at h1'
      exact (List.dropWhile_sublist _).subset h1'
    rw [List.mem_map] at h2
    obtain ⟨b, hb, hbc⟩ := h2
    rw [List.mem_map] at hb
    obtain ⟨a, _, hab⟩ := hb
    by_cases hcond : (isAlnumCode b || b == 95) = true
    · rw [if_pos hcond] at hbc
      rcases Bool.or_eq_true _ _ |>.mp hcond with halnum | h95
      · have hnu := lowerCode_not_upper a
        rw [hab] at hnu
        simp only [isAlnumCode, Bool.or_eq_true, decide_eq_true_eq] at halnum
        omega
      · simp only [beq_iff_eq] at h95
        omega
    · rw [if_neg hcond] at hbc
      exact Or.inr (Or.inr hbc.symm)
  refine ⟨?_, hmem, ?_, ?_, by decide⟩
  · unfold sanitize_feature_name
    simp [List.length_take_le]
  · intro h47
    rcases hmem 47 h47 with h | h | h <;> omega
  · cases h46 : hasSub [46, 46] (sanitize_feature_name feature) with
    | false => rfl
    | true =>
      exfalso
      have := hasSub_head_mem 46 [46] _ h46
      rcases hmem 46 this with h | h | h <;> omega

/-- C7 (witness): the filename facts at a concrete feature string. -/
theorem c7_sanitized_filename_witness :
    (sanitize_feature_name (strCodes "Login/Signup Page")).length ≤ 50
  ∧ 47 ∉ sanitize_feature_name (strCodes "Login/Signup Page")
  ∧ hasSub [46, 46] (sanitize_feature_name (strCodes "Login/Signup Page")) = false :=
  ⟨(c7_sanitized_filename (strCodes "Login/Signup Page")).1,
   (c7_sanitized_filename (strCodes "Login/Signup Page")).2.2.1,
   (c7_sanitized_filename (strCodes "Login/Signup Page")).2.2.2.1⟩

/-- C8: section extraction of a text with no heading line yields the
empty mapping, and — in general — lines occurring before the first
heading are discarded: the extraction loop in its initial state (no open
section) is unchanged by any heading-free prefix of the line stream. -/
theorem c8_no_heading_preamble (content : String)
    (h : ∀ l ∈ pyLines content, isHeadingLine l = false) :
    extract_sections content = []
  ∧ ∀ (pre rest : List String), (∀ l ∈ pre, isHeadingLine l = false) →
      extractSectionsLoop [] none [] (pre ++ rest) = extractSectionsLoop [] none [] rest := by
  have hgen : ∀ (pre rest : List String), (∀ l ∈ pre, isHeadingLine l = false) →
      extractSectionsLoop [] none [] (pre ++ rest) = extractSectionsLoop [] none [] rest := by
    intro pre
    induction pre with
    | nil => intro rest _; rfl
    | cons l t ih =>
      intro rest hp
      have hl : isHeadingLine l = false := hp l (by simp)
      show extractSectionsLoop [] none [] (l :: (t ++ rest)) = _
      simp only [extractSectionsLoop, hl, Bool.false_eq_true, if_false, pyTruthy]
      exact ih rest (fun x hx => hp x (by simp [hx]))
  constructor
  · have := hgen (pyLines content) [] h
    rw [List.append_nil] at this
    rw [extract_sections, this]
    rfl
  · exact hgen

/-- C8 (witness): the theorem at a concrete heading-free text. -/
theorem c8_no_heading_preamble_witness :
    extract_sections "plain text\nno heading here" = [] :=
  (c8_no_heading_preamble "plain text\nno heading here" (by decide)).1

/-- C9 (counterexample): a bullet whose stripped requirement text is
exactly 10 characters long is discarded (the source keeps only
`len(req) > 10`), and a leading-zero line is not a capture candidate at
all (`startswith(tuple('123456789'))` excludes '0') — both contradict the
claim's "captured when it is 10 characters or longer" for "bulleted or
leading-digit" lines. -/
theorem c9_requirement_length_counterexample :
    stripReqPrefixes (pyStrip "- abcdefghij") = "abcdefghij"
  ∧ ("abcdefghij" : String).length = 10
  ∧ extract_requirements "Requirements\n- abcdefghij" = []
  ∧ extract_requirements "Requirements\n0 summarize the login flow here" = [] := by decide

/-- C9 (amended): while the in-requirements state is active, a line that
matches no requirement keyword and starts with '-' or a digit 1–9 has its
bullet/number-stripped text captured exactly when that text is non-empty
and strictly longer than 10 characters; a '#'-starting line (matching no
keyword) closes the state; and `extract_requirements` is the fold of this
step over the split lines. -/
theorem c9_requirement_capture_amended (line : String) (acc : List String)
    (hkw : hasReqKeyword (pyStrip line) = false) :
    ((pyStartsWith "-" (pyStrip line) = true ∨ startsWithDigit19 (pyStrip line) = true) →
      (reqStep hasReqKeyword (true, acc) line).2 =
        (if ¬(stripReqPrefixes (pyStrip line)).isEmpty ∧
            10 < (stripReqPrefixes (pyStrip line)).length
         then acc ++ [stripReqPrefixes (pyStrip line)] else acc))
  ∧ (pyStartsWith "#" (pyStrip line) = true →
      (reqStep hasReqKeyword (true, acc) line).1 = false)
  ∧ (∀ content, extract_requirements content =
      ((pyLines content).foldl (reqStep hasReqKeyword) (false, [])).2) := by
  refine ⟨?_, ?_, fun _ => rfl⟩
  · intro hb
    simp only [reqStep, hkw, Bool.false_eq_true, if_false, true_and]
    rw [if_pos hb]
  · intro hh
    simp [reqStep, hkw, hh]

/-- C9 (witness): the amended step equation at a concrete bullet line. -/
theorem c9_requirement_capture_witness :
    (reqStep hasReqKeyword (true, ([] : List String)) "- the login page must be fast").2 =
      (if ¬(stripReqPrefixes (pyStrip "- the login page must be fast")).isEmpty ∧
          10 < (stripReqPrefixes (pyStrip "- the login page must be fast")).length
       then ([] : List String) ++ [stripReqPrefixes (pyStrip "- the login page must be fast")]
       else []) :=
  (c9_requirement_capture_amended "- the login page must be fast" [] (by decide)).1 (by decide)

/-- C10: each refine operation is a total function of the embedding (no
exception escapes), and when the underlying completion call raises, the
operation returns the input artifact unchanged — the copy-and-patch of
the success path never runs, so no field differs from the input. -/
theorem c10_refine_error_atomicity (llm : LLM) (k₁ k₂ k₃ k₄ : Nat)
    (e₁ e₂ e₃ e₄ : String) (a : AnalysisArtifact) (ar : ArchitectureArtifact)
    (d : DocumentArtifact) (f : FeaturesArtifact) (fb : String)
    (h₁ : llm k₁ = .error e₁) (h₂ : llm k₂ = .error e₂)
    (h₃ : llm k₃ = .error e₃) (h₄ : llm k₄ = .error e₄) :
    refine_analysis llm k₁ a fb = (a, k₁ + 1)
  ∧ refine_architecture llm k₂ ar fb = (ar, k₂ + 1)
  ∧ refine_document llm k₃ d fb = (d, k₃ + 1)
  ∧ refine_features llm k₄ f fb = (f, k₄ + 1) := by
  refine ⟨?_, ?_, ?_, ?_⟩
  · simp [refine_analysis, llmComplete, h₁]
  · simp [refine_architecture, llmComplete, h₂]
  · simp [refine_document, llmComplete, h₃]
  · simp [refine_features, llmComplete, h₄]

/-- C10 (witness): the atomicity equations at a concrete always-raising
provider and concrete artifacts. -/
theorem c10_refine_error_atomicity_witness :
    refine_analysis (fun _ => .error "down") 0 {} "feedback" = ({}, 0 + 1)
  ∧ refine_architecture (fun _ => .error "down") 0 {} "feedback" = ({}, 0 + 1)
  ∧ refine_document (fun _ => .error "down") 0 {} "feedback" = ({}, 0 + 1)
  ∧ refine_features (fun _ => .error "down") 0 {} "feedback" = ({}, 0 + 1) :=
  c10_refine_error_atomicity (fun _ => .error "down") 0 0 0 0
    "down" "down" "down" "down" {} {} {} {} "feedback" rfl rfl rfl rfl
